import Mathlib

/-!
# Verification of the ziit-vscode heartbeat engine

Shallow embedding of the latest revision of `HeartbeatManager`
(`src/heartbeat.ts`, lines 1260-1992): activity accumulation, the
heartbeat send path, the offline-queue flush loop, the daily-summary
reconciliation fetch, and the edge-triggered connectivity/credential
setters.  Times are milliseconds as `Nat` (JavaScript `Date.now()`),
`Math.floor` of a non-negative quotient is `Nat` division, and network
outcomes are passed in explicitly as data.
-/

namespace Ziit

/-- The heartbeat record (`interface Heartbeat`, latest revision):
timestamp string plus optional project/language/file/branch and the
editor and os identifiers. -/
structure Heartbeat where
  timestamp : String
  project : Option String := none
  language : Option String := none
  file : Option String := none
  branch : Option String := none
  editor : String := ""
  os : String := ""
deriving DecidableEq, Repr

/-- Observable side effects emitted towards the status bar / scheduler.
`updateTime t` models `statusBar.updateTime(hours, minutes)` where the
source first computes `totalSeconds = t` and then splits it into
`floor(t/3600)` hours and `floor(t%3600/60)` minutes; `triggerFlush`
models an invocation of `syncOfflineHeartbeats`. -/
inductive Effect where
  | notifyOnline (b : Bool)
  | notifyApiKey (b : Bool)
  | updateTime (totalSeconds : Nat)
  | triggerFlush
deriving DecidableEq, Repr

/-- The mutable fields of `HeartbeatManager` (latest revision).
`activeDocumentInfo` is the optional `{file, language}` pair;
`hasStatusBar` records whether `this.statusBar` is non-null. -/
structure HMState where
  lastHeartbeat : Nat := 0
  lastFile : String := ""
  heartbeatInterval : Nat := 120000
  activeDocumentInfo : Option (String × String) := none
  hasStatusBar : Bool := true
  heartbeatCount : Nat := 0
  successCount : Nat := 0
  failureCount : Nat := 0
  offlineHeartbeats : List Heartbeat := []
  isOnline : Bool := true
  hasValidApiKey : Bool := true
  lastActivity : Nat := 0
  todayLocalTotalSeconds : Nat := 0
  isWindowFocused : Bool := true
  unsyncedLocalSeconds : Nat := 0
deriving DecidableEq, Repr

/-- JavaScript truthiness test for an optional string setting:
`!x` holds when the value is `undefined` or the empty string. -/
def optStrFalsy : Option String → Bool
  | none => true
  | some s => s.isEmpty

/-- Embedding of `isUserActive` (latest revision, lines 1468-1470):
`return this.isWindowFocused;`. -/
def isUserActive (s : HMState) : Bool :=
  s.isWindowFocused

/-- Embedding of `updateActivity` (latest revision, lines 1432-1441): if the user is
active and a previous interaction exists, add the elapsed whole seconds
(when positive) to `unsyncedLocalSeconds`; then set `lastActivity := now`. -/
def updateActivity (s : HMState) (now : Nat) : HMState :=
  let s1 :=
    if isUserActive s = true ∧ 0 < s.lastActivity then
      let elapsedSeconds := (now - s.lastActivity) / 1000
      if 0 < elapsedSeconds then
        { s with unsyncedLocalSeconds := s.unsyncedLocalSeconds + elapsedSeconds }
      else s
    else s
  { s1 with lastActivity := now }

/-- Embedding of `setOnlineStatus` (lines 1969-1977): edge-triggered; on a change it
stores the new flag and notifies the status bar (when present), and on
no change it does nothing.  The body contains no flush invocation. -/
def setOnlineStatus (s : HMState) (b : Bool) : HMState × List Effect :=
  if s.isOnline ≠ b then
    ({ s with isOnline := b },
     if s.hasStatusBar then [Effect.notifyOnline b] else [])
  else (s, [])

/-- Embedding of `setApiKeyStatus` (lines 1979-1987): edge-triggered credential flag. -/
def setApiKeyStatus (s : HMState) (b : Bool) : HMState × List Effect :=
  if s.hasValidApiKey ≠ b then
    ({ s with hasValidApiKey := b },
     if s.hasStatusBar then [Effect.notifyApiKey b] else [])
  else (s, [])

/-- Outcome of one network send (single heartbeat or one batch), as
classified by the response handlers in the source: HTTP 2xx, HTTP 401,
or any other non-2xx status / transport error. -/
inductive SendOutcome where
  | ok
  | fail401
  | failOther
deriving DecidableEq, Repr

/-- Outcome of the `makeRequest` call inside `fetchDailySummary`:
a parsed response whose `summaries` carry these `totalSeconds` values,
a 401 rejection (`error.message.includes("401")`), or any other
rejection (bad status, transport error, invalid JSON). -/
inductive FetchResult where
  | ok (summaries : List Nat)
  | err401
  | errOther
deriving DecidableEq, Repr

/-- One run of the `while` loop of `syncOfflineHeartbeats` (latest
revision, lines 1580-1651), with the network outcome of each batch
attempt supplied by `outcomes`.  Each iteration takes `batch = slice(0,
1000)` off the front; on 2xx it keeps the shortened queue, marks online
and the key valid, persists, zeroes `unsyncedLocalSeconds`, and
continues; on failure it re-prepends the batch (`[...batch, ...rest]`),
persists, downgrades the matching flag (401 → key invalid, otherwise →
offline), and breaks out of the loop. -/
def flushLoop (s : HMState) : List SendOutcome → HMState × List Effect
  | [] => (s, [])
  | o :: rest =>
    if s.offlineHeartbeats.isEmpty then (s, [])
    else
      let batch := s.offlineHeartbeats.take 1000
      let q := s.offlineHeartbeats.drop 1000
      match o with
      | SendOutcome.ok =>
        let p1 := setOnlineStatus { s with offlineHeartbeats := q } true
        let p2 := setApiKeyStatus p1.1 true
        let p3 := flushLoop { p2.1 with unsyncedLocalSeconds := 0 } rest
        (p3.1, p1.2 ++ p2.2 ++ p3.2)
      | SendOutcome.fail401 =>
        let p1 := setApiKeyStatus { s with offlineHeartbeats := batch ++ q } false
        (p1.1, p1.2)
      | SendOutcome.failOther =>
        let p1 := setOnlineStatus { s with offlineHeartbeats := batch ++ q } false
        (p1.1, p1.2)

/-- Embedding of the `syncOfflineHeartbeats` entry guards (lines 1564-1570) followed by
the flush loop: return unchanged when offline, when the queue is empty,
or when the API key or base URL is missing.  The timestamp-normalising
`map` before the loop is the identity here because timestamps are
already strings in this model; the follow-up `fetchDailySummary` once
the queue is empty is modelled separately. -/
def syncOfflineHeartbeats (s : HMState) (apiKey baseUrl : Option String)
    (outcomes : List SendOutcome) : HMState × List Effect :=
  if !s.isOnline || s.offlineHeartbeats.isEmpty then (s, [])
  else if optStrFalsy apiKey || optStrFalsy baseUrl then (s, [])
  else flushLoop s outcomes

/-- Embedding of `fetchDailySummary` (latest revision, lines 1472-1562).  It first
calls `updateActivity`, returns early when the key or URL is missing,
and otherwise handles the request result: on success it marks online
and the key valid, adopts `summaries[0].totalSeconds` as
`todayLocalTotalSeconds` when present, and displays
`todayLocalTotalSeconds + unsyncedLocalSeconds` (just
`unsyncedLocalSeconds` when the summary list is empty); on a 401 it
marks the key invalid, on any other failure it marks offline, and in
both failure cases it re-displays the preserved
`todayLocalTotalSeconds + unsyncedLocalSeconds` when
`unsyncedLocalSeconds > 0`. -/
def fetchDailySummary (s : HMState) (now : Nat) (apiKey baseUrl : Option String)
    (r : FetchResult) : HMState × List Effect :=
  let s0 := updateActivity s now
  if optStrFalsy apiKey || optStrFalsy baseUrl then (s0, [])
  else
    match r with
    | FetchResult.ok summaries =>
      let p1 := setOnlineStatus s0 true
      let p2 := setApiKeyStatus p1.1 true
      match summaries with
      | total :: _ =>
        let s2 := { p2.1 with todayLocalTotalSeconds := total }
        let disp := if s2.hasStatusBar then
            [Effect.updateTime (s2.todayLocalTotalSeconds + s2.unsyncedLocalSeconds)]
          else []
        (s2, p1.2 ++ p2.2 ++ disp)
      | [] =>
        let disp := if p2.1.hasStatusBar then
            [Effect.updateTime p2.1.unsyncedLocalSeconds]
          else []
        (p2.1, p1.2 ++ p2.2 ++ disp)
    | FetchResult.err401 =>
      let p1 := setApiKeyStatus s0 false
      let disp := if p1.1.hasStatusBar ∧ 0 < p1.1.unsyncedLocalSeconds then
          [Effect.updateTime (p1.1.todayLocalTotalSeconds + p1.1.unsyncedLocalSeconds)]
        else []
      (p1.1, p1.2 ++ disp)
    | FetchResult.errOther =>
      let p1 := setOnlineStatus s0 false
      let disp := if p1.1.hasStatusBar ∧ 0 < p1.1.unsyncedLocalSeconds then
          [Effect.updateTime (p1.1.todayLocalTotalSeconds + p1.1.unsyncedLocalSeconds)]
        else []
      (p1.1, p1.2 ++ disp)

/-- Inputs of one `sendHeartbeat` call that the source reads from its
environment: the current clock, the active editor's document path
(`none` when there is no active editor), the resolved project name
(`getProjectName`), configuration, git branch, the timestamp string for
the new record, host identifiers, and the network outcome reached when
a request is actually issued. -/
structure SendEnv where
  now : Nat
  activeEditorFile : Option String := none
  project : Option String := none
  apiKey : Option String := none
  baseUrl : Option String := none
  branch : Option String := none
  ts : String := ""
  editorName : String := ""
  osName : String := ""
  outcome : SendOutcome := SendOutcome.ok
deriving DecidableEq, Repr

/-- How one `sendHeartbeat` call terminated. -/
inductive SendResult where
  | skippedNoEditorOrDoc
  | skippedGate
  | skippedNoProject
  | skippedNoConfig
  | queuedOffline
  | sentOk
  | sent401
  | sentFailOther
deriving DecidableEq, Repr

/-- The heartbeat record constructed at lines 1702-1715. -/
def mkHeartbeat (env : SendEnv) (doc : String × String) : Heartbeat :=
  { timestamp := env.ts
    project := env.project
    language := some doc.2
    file := some doc.1
    branch := env.branch
    editor := env.editorName
    os := env.osName }

/-- Embedding of `sendHeartbeat` (latest revision, lines 1677-1790).  Return early
when there is no active editor or no `activeDocumentInfo`; apply the
non-forced gate (`!force && !fileChanged && !timeThresholdPassed`);
past the gate, record `lastFile`, `lastHeartbeat := now`, and increment
`heartbeatCount`; then silently skip when no project name resolves or
the key/URL is missing; queue straight to the offline list when
already offline; otherwise classify the network outcome: 2xx marks
online and the key valid, zeroes `unsyncedLocalSeconds`, and counts the
success; 401 marks the key invalid and queues the heartbeat; any other
failure counts the failure, marks offline, and queues the heartbeat. -/
def sendHeartbeat (s : HMState) (force : Bool) (env : SendEnv) : HMState × SendResult :=
  match env.activeEditorFile, s.activeDocumentInfo with
  | none, _ => (s, SendResult.skippedNoEditorOrDoc)
  | some _, none => (s, SendResult.skippedNoEditorOrDoc)
  | some edFile, some doc =>
    if force = false ∧ ¬ s.lastFile ≠ edFile ∧
        ¬ s.heartbeatInterval ≤ env.now - s.lastHeartbeat then
      (s, SendResult.skippedGate)
    else
      let s1 := { s with lastFile := edFile, lastHeartbeat := env.now,
                         heartbeatCount := s.heartbeatCount + 1 }
      if optStrFalsy env.project then (s1, SendResult.skippedNoProject)
      else if optStrFalsy env.apiKey || optStrFalsy env.baseUrl then
        (s1, SendResult.skippedNoConfig)
      else
        let hb := mkHeartbeat env doc
        if s1.isOnline = false then
          ({ s1 with offlineHeartbeats := s1.offlineHeartbeats ++ [hb] },
           SendResult.queuedOffline)
        else
          match env.outcome with
          | SendOutcome.ok =>
            let s2 := { s1 with successCount := s1.successCount + 1 }
            let s3 := (setOnlineStatus s2 true).1
            let s4 := (setApiKeyStatus s3 true).1
            ({ s4 with unsyncedLocalSeconds := 0 }, SendResult.sentOk)
          | SendOutcome.fail401 =>
            let s2 := (setApiKeyStatus s1 false).1
            ({ s2 with offlineHeartbeats := s2.offlineHeartbeats ++ [hb] },
             SendResult.sent401)
          | SendOutcome.failOther =>
            let s2 := { s1 with failureCount := s1.failureCount + 1 }
            let s3 := (setOnlineStatus s2 false).1
            ({ s3 with offlineHeartbeats := s3.offlineHeartbeats ++ [hb] },
             SendResult.sentFailOther)

/-- Holds exactly when a `sendHeartbeat` call got past the no-editor
check and the non-forced interval/file gate (the source then updates
`lastFile`, `lastHeartbeat`, `heartbeatCount` and proceeds towards a
send). -/
def gatePassed : SendResult → Bool
  | SendResult.skippedNoEditorOrDoc => false
  | SendResult.skippedGate => false
  | _ => true

/-! Section: Helper lemmas -/

theorem setOnlineStatus_offlineHeartbeats (s : HMState) (b : Bool) :
    (setOnlineStatus s b).1.offlineHeartbeats = s.offlineHeartbeats := by
  unfold setOnlineStatus; split <;> rfl

theorem setApiKeyStatus_offlineHeartbeats (s : HMState) (b : Bool) :
    (setApiKeyStatus s b).1.offlineHeartbeats = s.offlineHeartbeats := by
  unfold setApiKeyStatus; split <;> rfl

theorem setOnlineStatus_todayLocal (s : HMState) (b : Bool) :
    (setOnlineStatus s b).1.todayLocalTotalSeconds = s.todayLocalTotalSeconds := by
  unfold setOnlineStatus; split <;> rfl

theorem setApiKeyStatus_todayLocal (s : HMState) (b : Bool) :
    (setApiKeyStatus s b).1.todayLocalTotalSeconds = s.todayLocalTotalSeconds := by
  unfold setApiKeyStatus; split <;> rfl

theorem setOnlineStatus_unsynced (s : HMState) (b : Bool) :
    (setOnlineStatus s b).1.unsyncedLocalSeconds = s.unsyncedLocalSeconds := by
  unfold setOnlineStatus; split <;> rfl

theorem setApiKeyStatus_unsynced (s : HMState) (b : Bool) :
    (setApiKeyStatus s b).1.unsyncedLocalSeconds = s.unsyncedLocalSeconds := by
  unfold setApiKeyStatus; split <;> rfl

theorem setOnlineStatus_isOnline (s : HMState) (b : Bool) :
    (setOnlineStatus s b).1.isOnline = b := by
  unfold setOnlineStatus; split
  · rfl
  · next h => simpa using Decidable.of_not_not h

theorem setApiKeyStatus_hasValidApiKey (s : HMState) (b : Bool) :
    (setApiKeyStatus s b).1.hasValidApiKey = b := by
  unfold setApiKeyStatus; split
  · rfl
  · next h => simpa using Decidable.of_not_not h

theorem setApiKeyStatus_isOnline (s : HMState) (b : Bool) :
    (setApiKeyStatus s b).1.isOnline = s.isOnline := by
  unfold setApiKeyStatus; split <;> rfl

theorem setOnlineStatus_hasValidApiKey (s : HMState) (b : Bool) :
    (setOnlineStatus s b).1.hasValidApiKey = s.hasValidApiKey := by
  unfold setOnlineStatus; split <;> rfl

theorem setOnlineStatus_successCount (s : HMState) (b : Bool) :
    (setOnlineStatus s b).1.successCount = s.successCount := by
  unfold setOnlineStatus; split <;> rfl

theorem setApiKeyStatus_successCount (s : HMState) (b : Bool) :
    (setApiKeyStatus s b).1.successCount = s.successCount := by
  unfold setApiKeyStatus; split <;> rfl

theorem updateActivity_todayLocal (s : HMState) (now : Nat) :
    (updateActivity s now).todayLocalTotalSeconds = s.todayLocalTotalSeconds := by
  unfold updateActivity; dsimp only
  split
  · split <;> rfl
  · rfl

/-- A concrete base state used by witnesses and counterexamples. -/
def exState : HMState :=
  { lastHeartbeat := 0
    lastFile := "a.ts"
    activeDocumentInfo := some ("a.ts", "typescript")
    offlineHeartbeats :=
      [{ timestamp := "t1", editor := "vscode", os := "Linux" },
       { timestamp := "t2", editor := "vscode", os := "Linux" }]
    isOnline := true
    lastActivity := 0
    unsyncedLocalSeconds := 0 }

/-! Section: C1: a failed batch send restores the queue intact and stops the loop -/

/-- C1: for every queue state reached inside a flush, if the batch send
for the front batch fails (401 or any other failure), the offline queue
after the failed attempt is exactly the queue before the attempt — same
length, same elements, same order, the failed batch re-prepended intact
— and the flush loop stops (the remaining attempts are not consumed). -/
theorem flush_failure_preserves_queue (s : HMState) (o : SendOutcome)
    (rest : List SendOutcome) (h : o ≠ SendOutcome.ok) :
    (flushLoop s (o :: rest)).1.offlineHeartbeats = s.offlineHeartbeats ∧
    (flushLoop s (o :: rest)).1.offlineHeartbeats.length = s.offlineHeartbeats.length ∧
    flushLoop s (o :: rest) = flushLoop s [o] := by
  cases o with
  | ok => exact absurd rfl h
  | fail401 =>
    refine ⟨?_, ?_, ?_⟩ <;>
      simp [flushLoop, setApiKeyStatus_offlineHeartbeats, List.take_append_drop] <;>
      split <;>
      simp_all [setApiKeyStatus_offlineHeartbeats, List.take_append_drop,
        List.isEmpty_iff]
  | failOther =>
    refine ⟨?_, ?_, ?_⟩ <;>
      simp [flushLoop, setOnlineStatus_offlineHeartbeats, List.take_append_drop] <;>
      split <;>
      simp_all [setOnlineStatus_offlineHeartbeats, List.take_append_drop,
        List.isEmpty_iff]

/-- Witness for C1 at a concrete two-element queue with a failing first
attempt followed by further scheduled attempts that are never reached. -/
theorem flush_failure_preserves_queue_witness :
    SendOutcome.failOther ≠ SendOutcome.ok ∧
    ((flushLoop exState [SendOutcome.failOther, SendOutcome.ok]).1.offlineHeartbeats
        = exState.offlineHeartbeats ∧
      (flushLoop exState [SendOutcome.failOther, SendOutcome.ok]).1.offlineHeartbeats.length
        = exState.offlineHeartbeats.length ∧
      flushLoop exState [SendOutcome.failOther, SendOutcome.ok]
        = flushLoop exState [SendOutcome.failOther]) :=
  ⟨by decide, flush_failure_preserves_queue exState SendOutcome.failOther
    [SendOutcome.ok] (by decide)⟩

/-! Section: C2: inactivity-threshold gating of `unsyncedLocalSeconds` -/

/-- A focused state with a previous interaction at 1 ms, used to probe
`updateActivity` with large gaps. -/
def exGapState : HMState :=
  { lastActivity := 1, isWindowFocused := true, unsyncedLocalSeconds := 0 }

/-- C2 counterexample: with the window focused (the user is judged
active) and a previous interaction, a gap of 15:01 = 901 s — at least
the 15-minute threshold of 900 s — is still added in full to
`unsyncedLocalSeconds` by `updateActivity`, contradicting the claim
that gaps at or above the threshold are never accumulated. -/
theorem threshold_gating_cex :
    isUserActive exGapState = true ∧
    0 < exGapState.lastActivity ∧
    15 * 60 * 1000 ≤ 901001 - exGapState.lastActivity ∧
    (updateActivity exGapState 901001).unsyncedLocalSeconds
      = exGapState.unsyncedLocalSeconds + 901 := by
  refine ⟨rfl, by decide, by decide, ?_⟩
  decide

/-- C2 amended: in the latest revision there is no inactivity-threshold
gating at all.  On every interaction the elapsed whole-second gap is
added to `unsyncedLocalSeconds` exactly when the user is judged active
(window focused), a previous interaction exists, and the gap is at
least one second — regardless of how large the gap is (a 15:01 gap is
accumulated just like a 14:59 one) — and `lastActivity` is then set to
the current time. -/
theorem updateActivity_gap_accumulation (s : HMState) (now : Nat) :
    (updateActivity s now).unsyncedLocalSeconds =
      (if s.isWindowFocused = true ∧ 0 < s.lastActivity ∧
          0 < (now - s.lastActivity) / 1000 then
        s.unsyncedLocalSeconds + (now - s.lastActivity) / 1000
      else s.unsyncedLocalSeconds) ∧
    (updateActivity s now).lastActivity = now := by
  constructor
  · unfold updateActivity isUserActive
    dsimp only
    split
    · next h =>
      split
      · next h2 => rw [if_pos ⟨h.1, h.2, h2⟩]
      · next h2 => rw [if_neg (fun hc => h2 hc.2.2)]
    · next h =>
      rw [if_neg (fun hc => h ⟨hc.1, hc.2.1⟩)]
  · unfold updateActivity
    dsimp only

/-! Section: C3: the effectively-active predicate -/

/-- A focused state whose last interaction is far in the past. -/
def exStaleState : HMState :=
  { lastActivity := 1, isWindowFocused := true }

/-- C3 counterexample: at time 100000001 ms the last interaction of
`exStaleState` lies 100000000 ms back — far beyond the 15-minute
threshold — yet `isUserActive` still returns `true` because the window
is focused, contradicting the claimed "focused AND within threshold"
characterisation. -/
theorem effectively_active_cex :
    isUserActive exStaleState = true ∧
    15 * 60 * 1000 ≤ 100000001 - exStaleState.lastActivity := by
  exact ⟨rfl, by decide⟩

/-- C3 amended: in the latest revision the effectively-active predicate
returns `true` iff the host window is focused; the time since the last
recorded interaction is not consulted at all (changing `lastActivity`
never changes the result). -/
theorem isUserActive_focus_only (s : HMState) (t : Nat) :
    (isUserActive s = true ↔ s.isWindowFocused = true) ∧
    isUserActive { s with lastActivity := t } = isUserActive s := by
  exact ⟨Iff.rfl, rfl⟩

/-! Section: C4: successful reconciliation fetch -/

/-- An unfocused state with five locally accumulated unsynced seconds
and no server baseline yet. -/
def exFetchState : HMState :=
  { isWindowFocused := false, lastActivity := 4, unsyncedLocalSeconds := 5,
    todayLocalTotalSeconds := 0 }

/-- C4 counterexample: a successful daily-summary fetch reporting a
server total of 100 s adopts the 100 as `todayLocalTotalSeconds`, but
leaves `unsyncedLocalSeconds` at 5 instead of resetting it to zero,
contradicting the claim that both happen in the same step. -/
theorem fetch_success_reset_cex :
    (fetchDailySummary exFetchState 5 (some "key") (some "https://z")
        (FetchResult.ok [100])).1.todayLocalTotalSeconds = 100 ∧
    (fetchDailySummary exFetchState 5 (some "key") (some "https://z")
        (FetchResult.ok [100])).1.unsyncedLocalSeconds = 5 ∧
    (fetchDailySummary exFetchState 5 (some "key") (some "https://z")
        (FetchResult.ok [100])).1.unsyncedLocalSeconds ≠ 0 := by
  refine ⟨?_, ?_, ?_⟩ <;> decide

/-- C4 amended: whenever a daily-summary fetch succeeds with a
non-empty summary list, the server's reported total for today is
adopted as `todayLocalTotalSeconds`, but `unsyncedLocalSeconds` is NOT
reset: it keeps the value it has after the `updateActivity` call at the
top of the fetch (and is added on top of the adopted server total for
display). -/
theorem fetch_success_adopts_server_total (s : HMState) (now total : Nat)
    (rest : List Nat) (apiKey baseUrl : Option String)
    (hk : optStrFalsy apiKey = false) (hu : optStrFalsy baseUrl = false) :
    (fetchDailySummary s now apiKey baseUrl
        (FetchResult.ok (total :: rest))).1.todayLocalTotalSeconds = total ∧
    (fetchDailySummary s now apiKey baseUrl
        (FetchResult.ok (total :: rest))).1.unsyncedLocalSeconds
      = (updateActivity s now).unsyncedLocalSeconds := by
  unfold fetchDailySummary
  rw [hk, hu]
  dsimp only
  refine ⟨rfl, ?_⟩
  show (setApiKeyStatus (setOnlineStatus (updateActivity s now) true).1
      true).1.unsyncedLocalSeconds = (updateActivity s now).unsyncedLocalSeconds
  rw [setApiKeyStatus_unsynced, setOnlineStatus_unsynced]

/-- Witness for C4's amended theorem at a concrete state. -/
theorem fetch_success_adopts_server_total_witness :
    optStrFalsy (some "key") = false ∧
    ((fetchDailySummary exFetchState 5 (some "key") (some "https://z")
        (FetchResult.ok [100])).1.todayLocalTotalSeconds = 100 ∧
      (fetchDailySummary exFetchState 5 (some "key") (some "https://z")
        (FetchResult.ok [100])).1.unsyncedLocalSeconds
        = (updateActivity exFetchState 5).unsyncedLocalSeconds) :=
  ⟨by decide, fetch_success_adopts_server_total exFetchState 5 100 []
    (some "key") (some "https://z") (by decide) (by decide)⟩

/-! Section: C8: failed reconciliation fetch never regresses the baseline -/

/-- C8: once `todayLocalTotalSeconds` (the server-acknowledged
baseline) holds a value V, a reconciliation fetch that fails — with a
401 or any other error — leaves that baseline unchanged, and the
displayed total `todayLocalTotalSeconds + unsyncedLocalSeconds` after
the failed fetch is still at least V. -/
theorem fetch_failure_no_regression (s : HMState) (now : Nat)
    (apiKey baseUrl : Option String) (r : FetchResult)
    (h : r = FetchResult.err401 ∨ r = FetchResult.errOther) :
    (fetchDailySummary s now apiKey baseUrl r).1.todayLocalTotalSeconds
      = s.todayLocalTotalSeconds ∧
    s.todayLocalTotalSeconds ≤
      (fetchDailySummary s now apiKey baseUrl r).1.todayLocalTotalSeconds
        + (fetchDailySummary s now apiKey baseUrl r).1.unsyncedLocalSeconds := by
  have key : (fetchDailySummary s now apiKey baseUrl r).1.todayLocalTotalSeconds
      = s.todayLocalTotalSeconds := by
    rcases h with h | h <;> subst h <;>
      · unfold fetchDailySummary
        split
        · exact updateActivity_todayLocal s now
        · dsimp only
          first
            | rw [setApiKeyStatus_todayLocal, updateActivity_todayLocal]
            | rw [setOnlineStatus_todayLocal, updateActivity_todayLocal]
  exact ⟨key, key ▸ Nat.le_add_right _ _⟩

/-- Witness for C8 at a concrete state with a non-zero baseline and a
transient fetch failure. -/
theorem fetch_failure_no_regression_witness :
    (FetchResult.errOther = FetchResult.err401 ∨
      FetchResult.errOther = FetchResult.errOther) ∧
    ((fetchDailySummary { exFetchState with todayLocalTotalSeconds := 77 } 5
        (some "key") (some "https://z")
        FetchResult.errOther).1.todayLocalTotalSeconds
      = HMState.todayLocalTotalSeconds
          { exFetchState with todayLocalTotalSeconds := 77 } ∧
      HMState.todayLocalTotalSeconds
          { exFetchState with todayLocalTotalSeconds := 77 } ≤
        (fetchDailySummary { exFetchState with todayLocalTotalSeconds := 77 } 5
            (some "key") (some "https://z")
            FetchResult.errOther).1.todayLocalTotalSeconds
          + (fetchDailySummary { exFetchState with todayLocalTotalSeconds := 77 } 5
              (some "key") (some "https://z")
              FetchResult.errOther).1.unsyncedLocalSeconds) :=
  ⟨Or.inr rfl, fetch_failure_no_regression
    { exFetchState with todayLocalTotalSeconds := 77 } 5
    (some "key") (some "https://z") FetchResult.errOther (Or.inr rfl)⟩

/-- The non-forced gate of `sendHeartbeat` fails when the trigger is
forced, the file changed, or the interval has elapsed. -/
theorem send_gate_not_skipped (s : HMState) (force : Bool) (env : SendEnv)
    (edFile : String)
    (hgate : force = true ∨ s.lastFile ≠ edFile ∨
      s.heartbeatInterval ≤ env.now - s.lastHeartbeat) :
    ¬(force = false ∧ ¬ s.lastFile ≠ edFile ∧
      ¬ s.heartbeatInterval ≤ env.now - s.lastHeartbeat) := by
  rintro ⟨hf, hnf, hnt⟩
  rcases hgate with h | h | h
  · rw [h] at hf; exact Bool.noConfusion hf
  · exact hnf h
  · exact hnt h

/-! Section: C5: HTTP 401 on a single heartbeat send -/

/-- C5: when a single-heartbeat delivery attempt (past the gate, with a
project, configuration, and the online flag set) receives HTTP 401, the
credential flag becomes `false`, the online flag keeps its previous
value (it is NOT marked offline), and the heartbeat is still appended
to the offline queue for later retry. -/
theorem send_401_queues_and_keeps_online (s : HMState) (force : Bool)
    (env : SendEnv) (edFile : String) (doc : String × String)
    (h1 : env.activeEditorFile = some edFile)
    (h2 : s.activeDocumentInfo = some doc)
    (hgate : force = true ∨ s.lastFile ≠ edFile ∨
      s.heartbeatInterval ≤ env.now - s.lastHeartbeat)
    (hpr : optStrFalsy env.project = false)
    (hk : optStrFalsy env.apiKey = false)
    (hu : optStrFalsy env.baseUrl = false)
    (hon : s.isOnline = true)
    (hout : env.outcome = SendOutcome.fail401) :
    (sendHeartbeat s force env).1.hasValidApiKey = false ∧
    (sendHeartbeat s force env).1.isOnline = s.isOnline ∧
    (sendHeartbeat s force env).1.offlineHeartbeats
      = s.offlineHeartbeats ++ [mkHeartbeat env doc] ∧
    (sendHeartbeat s force env).2 = SendResult.sent401 := by
  unfold sendHeartbeat
  rw [h1, h2]
  dsimp only
  rw [if_neg (send_gate_not_skipped s force env edFile hgate)]
  rw [if_neg (show ¬ optStrFalsy env.project = true by simp [hpr])]
  rw [if_neg (show ¬ (optStrFalsy env.apiKey || optStrFalsy env.baseUrl) = true by
    simp [hk, hu])]
  rw [if_neg (show ¬ s.isOnline = false by simp [hon])]
  rw [hout]
  dsimp only
  refine ⟨?_, ?_, ?_, rfl⟩
  · exact setApiKeyStatus_hasValidApiKey _ false
  · rw [setApiKeyStatus_isOnline]
  · rw [setApiKeyStatus_offlineHeartbeats]

/-- Witness for C5: a forced trigger on a concrete online state whose
request returns 401. -/
def exSendEnv : SendEnv :=
  { now := 500000, activeEditorFile := some "b.ts", project := some "proj",
    apiKey := some "key", baseUrl := some "https://z", branch := some "main",
    ts := "2026-01-01T00:00:00Z", editorName := "vscode", osName := "Linux",
    outcome := SendOutcome.fail401 }

theorem send_401_queues_and_keeps_online_witness :
    exSendEnv.activeEditorFile = some "b.ts" ∧
    exState.activeDocumentInfo = some ("a.ts", "typescript") ∧
    ((sendHeartbeat exState true exSendEnv).1.hasValidApiKey = false ∧
      (sendHeartbeat exState true exSendEnv).1.isOnline = exState.isOnline ∧
      (sendHeartbeat exState true exSendEnv).1.offlineHeartbeats
        = exState.offlineHeartbeats ++ [mkHeartbeat exSendEnv ("a.ts", "typescript")] ∧
      (sendHeartbeat exState true exSendEnv).2 = SendResult.sent401) :=
  ⟨rfl, rfl, send_401_queues_and_keeps_online exState true exSendEnv "b.ts"
    ("a.ts", "typescript") rfl rfl (Or.inl rfl) (by decide) (by decide)
    (by decide) rfl rfl⟩

/-! Section: C6: HTTP 2xx on a single heartbeat send -/

/-- C6: when a single-heartbeat delivery attempt (past the gate, with a
project, configuration, and the online flag set) receives a 2xx status,
the credential flag is set valid, the online flag is set, the success
counter is incremented, `unsyncedLocalSeconds` is reset to zero, and
the heartbeat is not enqueued (the offline queue is unchanged). -/
theorem send_2xx_success (s : HMState) (force : Bool)
    (env : SendEnv) (edFile : String) (doc : String × String)
    (h1 : env.activeEditorFile = some edFile)
    (h2 : s.activeDocumentInfo = some doc)
    (hgate : force = true ∨ s.lastFile ≠ edFile ∨
      s.heartbeatInterval ≤ env.now - s.lastHeartbeat)
    (hpr : optStrFalsy env.project = false)
    (hk : optStrFalsy env.apiKey = false)
    (hu : optStrFalsy env.baseUrl = false)
    (hon : s.isOnline = true)
    (hout : env.outcome = SendOutcome.ok) :
    (sendHeartbeat s force env).1.hasValidApiKey = true ∧
    (sendHeartbeat s force env).1.isOnline = true ∧
    (sendHeartbeat s force env).1.successCount = s.successCount + 1 ∧
    (sendHeartbeat s force env).1.unsyncedLocalSeconds = 0 ∧
    (sendHeartbeat s force env).1.offlineHeartbeats = s.offlineHeartbeats ∧
    (sendHeartbeat s force env).2 = SendResult.sentOk := by
  unfold sendHeartbeat
  rw [h1, h2]
  dsimp only
  rw [if_neg (send_gate_not_skipped s force env edFile hgate)]
  rw [if_neg (show ¬ optStrFalsy env.project = true by simp [hpr])]
  rw [if_neg (show ¬ (optStrFalsy env.apiKey || optStrFalsy env.baseUrl) = true by
    simp [hk, hu])]
  rw [if_neg (show ¬ s.isOnline = false by simp [hon])]
  rw [hout]
  dsimp only
  refine ⟨?_, ?_, ?_, rfl, ?_, rfl⟩
  · exact setApiKeyStatus_hasValidApiKey _ true
  · rw [setApiKeyStatus_isOnline, setOnlineStatus_isOnline]
  · rw [setApiKeyStatus_successCount, setOnlineStatus_successCount]
  · rw [setApiKeyStatus_offlineHeartbeats, setOnlineStatus_offlineHeartbeats]

/-- Witness for C6: same concrete setup as C5 but with a 2xx outcome. -/
theorem send_2xx_success_witness :
    ({ exSendEnv with outcome := SendOutcome.ok }).activeEditorFile = some "b.ts" ∧
    ((sendHeartbeat exState true { exSendEnv with outcome := SendOutcome.ok }).1.hasValidApiKey = true ∧
      (sendHeartbeat exState true { exSendEnv with outcome := SendOutcome.ok }).1.isOnline = true ∧
      (sendHeartbeat exState true { exSendEnv with outcome := SendOutcome.ok }).1.successCount
        = exState.successCount + 1 ∧
      (sendHeartbeat exState true { exSendEnv with outcome := SendOutcome.ok }).1.unsyncedLocalSeconds = 0 ∧
      (sendHeartbeat exState true { exSendEnv with outcome := SendOutcome.ok }).1.offlineHeartbeats
        = exState.offlineHeartbeats ∧
      (sendHeartbeat exState true { exSendEnv with outcome := SendOutcome.ok }).2 = SendResult.sentOk) :=
  ⟨rfl, send_2xx_success exState true { exSendEnv with outcome := SendOutcome.ok }
    "b.ts" ("a.ts", "typescript") rfl rfl (Or.inl rfl) (by decide) (by decide)
    (by decide) rfl rfl⟩

/-! Section: C9: the send gate -/

/-- C9: with an active editor and an active document, a heartbeat send
is attempted (the call gets past the gate towards the send path) if and
only if the trigger is forced, or the active file differs from the file
of the last heartbeat, or at least the fixed heartbeat interval has
elapsed since the last heartbeat; in particular a forced trigger always
gets past the gate, and a non-forced one does so exactly when the file
changed or the interval elapsed. -/
theorem send_gate_characterisation (s : HMState) (force : Bool)
    (env : SendEnv) (edFile : String) (doc : String × String)
    (h1 : env.activeEditorFile = some edFile)
    (h2 : s.activeDocumentInfo = some doc) :
    gatePassed (sendHeartbeat s force env).2 =
      (force || decide (s.lastFile ≠ edFile)
        || decide (s.heartbeatInterval ≤ env.now - s.lastHeartbeat)) := by
  unfold sendHeartbeat
  rw [h1, h2]
  dsimp only
  by_cases hc : force = false ∧ ¬ s.lastFile ≠ edFile ∧
      ¬ s.heartbeatInterval ≤ env.now - s.lastHeartbeat
  · rw [if_pos hc]
    rw [hc.1]
    simp [gatePassed, hc.2.1, hc.2.2]
  · rw [if_neg hc]
    have hr : (force || decide (s.lastFile ≠ edFile)
        || decide (s.heartbeatInterval ≤ env.now - s.lastHeartbeat)) = true := by
      rcases Bool.eq_false_or_eq_true force with hf | hf
      · simp [hf]
      · by_cases hp : s.lastFile ≠ edFile
        · simp [hp]
        · by_cases hq : s.heartbeatInterval ≤ env.now - s.lastHeartbeat
          · simp [hq]
          · exact absurd ⟨hf, hp, hq⟩ hc
    rw [hr]
    split
    · rfl
    · split
      · rfl
      · split
        · rfl
        · split <;> rfl

/-- Witness for C9: a non-forced trigger for an unchanged file before
the interval has elapsed is gated off on a concrete state. -/
theorem send_gate_characterisation_witness :
    ({ exSendEnv with now := 1000, activeEditorFile := some "a.ts"
        : SendEnv }).activeEditorFile = some "a.ts" ∧
    exState.activeDocumentInfo = some ("a.ts", "typescript") ∧
    gatePassed (sendHeartbeat exState false
        { exSendEnv with now := 1000, activeEditorFile := some "a.ts" }).2
      = (false || decide (exState.lastFile ≠ "a.ts")
          || decide (exState.heartbeatInterval ≤
              1000 - exState.lastHeartbeat)) :=
  ⟨rfl, rfl, send_gate_characterisation exState false
    { exSendEnv with now := 1000, activeEditorFile := some "a.ts" }
    "a.ts" ("a.ts", "typescript") rfl rfl⟩

/-! Section: C10: silent skips still consume the gate -/

/-- C10: when a trigger evaluation passes the gate but the send is then
silently skipped — because no project name resolves, or the API key or
base URL is missing — the state has nevertheless been updated exactly
to `lastFile := active file`, `lastHeartbeat := now`,
`heartbeatCount + 1`, with every other field (offline queue,
`unsyncedLocalSeconds`, online/credential flags, ...) unchanged; and as
a consequence any later non-forced trigger for the same file within a
full heartbeat interval of the skip is gated off, leaving the state
untouched, even though nothing was sent or queued. -/
theorem silent_skip_frame_and_suppression (s : HMState) (force : Bool)
    (env env2 : SendEnv) (edFile : String) (doc : String × String)
    (h1 : env.activeEditorFile = some edFile)
    (h2 : s.activeDocumentInfo = some doc)
    (hgate : force = true ∨ s.lastFile ≠ edFile ∨
      s.heartbeatInterval ≤ env.now - s.lastHeartbeat)
    (hskip : optStrFalsy env.project = true ∨ optStrFalsy env.apiKey = true ∨
      optStrFalsy env.baseUrl = true)
    (h3 : env2.activeEditorFile = some edFile)
    (h4 : env2.now - env.now < s.heartbeatInterval) :
    (sendHeartbeat s force env).1 =
      { s with lastFile := edFile, lastHeartbeat := env.now,
               heartbeatCount := s.heartbeatCount + 1 } ∧
    ((sendHeartbeat s force env).2 = SendResult.skippedNoProject ∨
      (sendHeartbeat s force env).2 = SendResult.skippedNoConfig) ∧
    sendHeartbeat (sendHeartbeat s force env).1 false env2 =
      ((sendHeartbeat s force env).1, SendResult.skippedGate) := by
  have hres : sendHeartbeat s force env =
      ({ s with lastFile := edFile, lastHeartbeat := env.now,
                heartbeatCount := s.heartbeatCount + 1 },
        SendResult.skippedNoProject) ∨
      sendHeartbeat s force env =
      ({ s with lastFile := edFile, lastHeartbeat := env.now,
                heartbeatCount := s.heartbeatCount + 1 },
        SendResult.skippedNoConfig) := by
    unfold sendHeartbeat
    rw [h1, h2]
    dsimp only
    rw [if_neg (send_gate_not_skipped s force env edFile hgate)]
    by_cases hp : optStrFalsy env.project = true
    · left; rw [if_pos hp]
    · right
      rw [if_neg hp]
      have hcfg : (optStrFalsy env.apiKey || optStrFalsy env.baseUrl) = true := by
        rcases hskip with h | h | h
        · exact absurd h hp
        · simp [h]
        · simp [h]
      rw [if_pos hcfg]
  have hsupp : ∀ s1 : HMState,
      s1 = { s with lastFile := edFile, lastHeartbeat := env.now,
                    heartbeatCount := s.heartbeatCount + 1 } →
      sendHeartbeat s1 false env2 = (s1, SendResult.skippedGate) := by
    intro s1 hs1
    subst hs1
    unfold sendHeartbeat
    rw [h3]
    dsimp only
    rw [h2]
    dsimp only
    rw [if_pos ⟨rfl, fun hne => hne rfl, Nat.not_le.mpr h4⟩]
  rcases hres with h | h <;>
    · rw [h]
      exact ⟨rfl, by simp, hsupp _ rfl⟩

/-- Witness for C10: a concrete forced trigger with no resolvable
project, followed by a non-forced trigger for the same file 1 ms
later. -/
theorem silent_skip_frame_and_suppression_witness :
    optStrFalsy ({ exSendEnv with project := none : SendEnv }).project = true ∧
    ((sendHeartbeat exState true { exSendEnv with project := none }).1 =
        { exState with lastFile := "b.ts", lastHeartbeat := 500000,
                       heartbeatCount := exState.heartbeatCount + 1 } ∧
      ((sendHeartbeat exState true { exSendEnv with project := none }).2
          = SendResult.skippedNoProject ∨
        (sendHeartbeat exState true { exSendEnv with project := none }).2
          = SendResult.skippedNoConfig) ∧
      sendHeartbeat (sendHeartbeat exState true { exSendEnv with project := none }).1
          false { exSendEnv with now := 500001 } =
        ((sendHeartbeat exState true { exSendEnv with project := none }).1,
          SendResult.skippedGate)) :=
  ⟨rfl, silent_skip_frame_and_suppression exState true
    { exSendEnv with project := none } { exSendEnv with now := 500001 }
    "b.ts" ("a.ts", "typescript") rfl rfl (Or.inl rfl) (Or.inl rfl) rfl
    (by decide)⟩

/-! Section: C7: the edge-triggered online setter and flush triggering -/

/-- A concrete offline state with a non-empty offline queue, so that a
flush on reconnection would have work to do. -/
def exOffState : HMState :=
  { exState with isOnline := false }

/-- C7 counterexample: flipping the online flag from `false` to `true`
through `setOnlineStatus` on a state with a non-empty offline queue
updates the flag and notifies the status bar, but does NOT trigger an
offline-queue flush — no flush effect is emitted — contradicting the
claim that the false→true transition immediately triggers a flush. -/
theorem online_flip_flush_cex :
    exOffState.isOnline = false ∧
    exOffState.offlineHeartbeats ≠ [] ∧
    (setOnlineStatus exOffState true).1.isOnline = true ∧
    (setOnlineStatus exOffState true).2 = [Effect.notifyOnline true] ∧
    Effect.triggerFlush ∉ (setOnlineStatus exOffState true).2 := by
  refine ⟨rfl, ?_, ?_, ?_, ?_⟩ <;> decide

/-- C7 amended: `setOnlineStatus` is edge-triggered — setting the flag
to the value it already holds changes nothing and emits nothing, and a
genuine change stores the new value and notifies the status bar (when
present) — but it never triggers an offline-queue flush, not even on a
false→true transition; flushes are invoked only from `initialize` (at
startup and by the fixed 30-second timer). -/
theorem setOnlineStatus_edge_triggered_no_flush (s : HMState) (b : Bool) :
    (s.isOnline = b → setOnlineStatus s b = (s, [])) ∧
    (s.isOnline ≠ b → (setOnlineStatus s b).1 = { s with isOnline := b } ∧
      (setOnlineStatus s b).2 =
        (if s.hasStatusBar then [Effect.notifyOnline b] else [])) ∧
    Effect.triggerFlush ∉ (setOnlineStatus s b).2 := by
  refine ⟨?_, ?_, ?_⟩
  · intro h
    unfold setOnlineStatus
    rw [if_neg (by simp [h])]
  · intro h
    unfold setOnlineStatus
    rw [if_pos h]
    exact ⟨rfl, rfl⟩
  · unfold setOnlineStatus
    split
    · split
      · simp
      · simp
    · simp

/-- Witness for C7's amended theorem on a concrete false→true flip. -/
theorem setOnlineStatus_edge_triggered_no_flush_witness :
    ((exOffState.isOnline = true → setOnlineStatus exOffState true = (exOffState, [])) ∧
      (exOffState.isOnline ≠ true →
        (setOnlineStatus exOffState true).1 = { exOffState with isOnline := true } ∧
        (setOnlineStatus exOffState true).2 =
          (if exOffState.hasStatusBar then [Effect.notifyOnline true] else [])) ∧
      Effect.triggerFlush ∉ (setOnlineStatus exOffState true).2) ∧
    exOffState.isOnline ≠ true :=
  ⟨setOnlineStatus_edge_triggered_no_flush exOffState true, by decide⟩

end Ziit
